import Mathlib

/-!
Verification of the Leafs prediction pipeline.

Shallow embedding of the core prediction-and-scoring pipeline of the
repository: the feature engineering of `model.py` (`add_features`,
column by column), the model-selection loop of `train_all_models`, the
prediction ledger of `database.py` (`add_prediction`,
`resolve_prediction`, `get_leaderboard`) and the update/scheduler flow
of `app.py` (`submit_prediction`, `get_model_prediction`,
`retrain_model`, `start_scheduler`).

Machine floats in the source are modelled by `ℚ`; pandas NaN by
`Option`; the SQL prediction table by a `List Prediction`; a raised
Python exception by the `Except.error` branch of an explicit outcome
argument.
-/

namespace LeafsPredictor

/-- One row of the historical game log (`leafs_data.csv`) as consumed by
`add_features` in `model.py`.  `add_features` first sorts the frame by
`date`; the embedding takes the rows already in that date order (the
store invariant).  Only the columns that the windowed statistics read
are carried; the constant-default contextual columns do not feed any
windowed statistic. -/
structure Game where
  date : Nat
  opponent : String
  is_home : Bool
  leafs_score : Nat
  opponent_score : Nat
  result : String
  deriving DecidableEq, Repr

/-- The `win` column of `add_features`:
`df["win"] = (df["result"] == "W").astype(int)`. -/
def winQ (g : Game) : ℚ := if g.result = "W" then 1 else 0

/-- The content of a pandas trailing window of width `w` ending at (and
including) index `i`: the last `min (i+1) w` of the first `i+1`
elements.  `Series.rolling` windows end at the current row. -/
def window (l : List ℚ) (w i : Nat) : List ℚ :=
  (l.take (i + 1)).drop (i + 1 - w)

/-- Pandas `Series.rolling(window=w, min_periods=m).mean()` at index `i`
(for `m ≤ w`): NaN (`none`) while the window holds fewer than `m`
observations, else the mean of the window. -/
def rollingMean (l : List ℚ) (w m i : Nat) : Option ℚ :=
  if i + 1 < m then none
  else some ((window l w i).sum / ((window l w i).length : ℚ))

/-- Pandas `Series.rolling(window=w, min_periods=m).sum()` at index `i`. -/
def rollingSum (l : List ℚ) (w m i : Nat) : Option ℚ :=
  if i + 1 < m then none else some (window l w i).sum

/-- Column `df["rolling_win_pct"] = df["win"].rolling(window=10, min_periods=5).mean()`. -/
def rolling_win_pct (gs : List Game) (i : Nat) : Option ℚ :=
  rollingMean (gs.map winQ) 10 5 i

/-- Column `df["rolling_goals_for"] = df["leafs_score"].rolling(window=5, min_periods=3).mean()`. -/
def rolling_goals_for (gs : List Game) (i : Nat) : Option ℚ :=
  rollingMean (gs.map (fun g => (g.leafs_score : ℚ))) 5 3 i

/-- Column `df["rolling_goals_against"] = df["opponent_score"].rolling(window=5, min_periods=3).mean()`. -/
def rolling_goals_against (gs : List Game) (i : Nat) : Option ℚ :=
  rollingMean (gs.map (fun g => (g.opponent_score : ℚ))) 5 3 i

/-- Column `df["goal_diff_rolling"]`: the rolling(10, min 5) sum of
`leafs_score` minus the rolling(10, min 5) sum of `opponent_score`. -/
def goal_diff_rolling (gs : List Game) (i : Nat) : Option ℚ :=
  match rollingSum (gs.map (fun g => (g.leafs_score : ℚ))) 10 5 i,
        rollingSum (gs.map (fun g => (g.opponent_score : ℚ))) 10 5 i with
  | some a, some b => some (a - b)
  | _, _ => none

/-- The streak scan of `add_features`: the streak value is appended
BEFORE the current game's result updates the accumulator, so `streak`
at index `i` depends only on games before `i`. -/
def streakGo : List Game → Int → List Int
  | [], _ => []
  | g :: rest, cur =>
      cur :: streakGo rest
        (if g.result = "W" then (if 0 < cur then cur + 1 else 1)
         else (if cur < 0 then cur - 1 else -1))

/-- Column `df["streak"]`. -/
def streakList (gs : List Game) : List Int := streakGo gs 0

/-- Read of the `h2h_records` dict with the `[]`-default that
`if opp not in h2h_records: h2h_records[opp] = []` establishes. -/
def lookupD : List (String × List ℚ) → String → List ℚ
  | [], _ => []
  | (k', v) :: rest, k => if k' = k then v else lookupD rest k

/-- Write of one key of the `h2h_records` dict. -/
def setRec : List (String × List ℚ) → String → List ℚ → List (String × List ℚ)
  | [], k, v => [(k, v)]
  | (k', v') :: rest, k, v =>
      if k' = k then (k, v) :: rest else (k', v') :: setRec rest k v

/-- The head-to-head scan of `add_features`: for each row, the prior
record against the row's opponent is read, a win percentage (default
`0.5` when fewer than two prior meetings) is emitted, and only then is
the current game's `win` value appended to the record. -/
def h2hGo : List Game → List (String × List ℚ) → List ℚ
  | [], _ => []
  | g :: rest, recs =>
      (if 2 ≤ (lookupD recs g.opponent).length then
          (lookupD recs g.opponent).sum / ((lookupD recs g.opponent).length : ℚ)
        else 1 / 2)
        :: h2hGo rest (setRec recs g.opponent (lookupD recs g.opponent ++ [winQ g]))

/-- Column `df["h2h_win_pct"]`. -/
def h2h_win_pct (gs : List Game) : List ℚ := h2hGo gs []

/-- Five straight wins. -/
def gsA : List Game :=
  [⟨1, "BOS", true, 3, 2, "W"⟩, ⟨2, "MTL", false, 4, 1, "W"⟩,
   ⟨3, "BOS", true, 2, 1, "W"⟩, ⟨4, "NYR", true, 5, 0, "W"⟩,
   ⟨5, "MTL", true, 3, 0, "W"⟩]

/-- Same as `gsA` except that the game at index 4 itself is a loss. -/
def gsB : List Game := gsA.take 4 ++ [⟨5, "MTL", true, 0, 3, "L"⟩]

/-- History `gsA` with one extra, later game appended (a mutation at
index 5). -/
def gsC : List Game := gsA ++ [⟨6, "BOS", false, 0, 7, "L"⟩]

/-- One row of the `predictions` table of `database.py` (`init_db`).
`actual_*` are NULL and the points/resolved columns take their SQL
defaults `0` until resolution. -/
structure Prediction where
  id : Nat
  username : String
  game_id : Nat
  game_date : String
  opponent : String
  is_home : Bool
  user_prediction : String
  user_score_leafs : Nat
  user_score_opponent : Nat
  model_prediction : String
  model_win_probability : ℚ
  actual_result : Option String
  actual_score_leafs : Option Nat
  actual_score_opponent : Option Nat
  user_points : Nat
  model_points : Nat
  is_resolved : Bool
  deriving DecidableEq, Repr

/-- The user-points block of `resolve_prediction`: start at 0, set 1 on a
categorical match, upgrade to 3 when additionally both guessed scores
equal the actual scores. -/
def userPointsFor (pred : Prediction) (ar : String) (asl aso : Nat) : Nat :=
  if pred.user_prediction = ar then
    if pred.user_score_leafs = asl ∧ pred.user_score_opponent = aso then 3 else 1
  else 0

/-- The model-points block of `resolve_prediction`: 1 on a categorical
match, otherwise 0; the scoreline is never consulted. -/
def modelPointsFor (pred : Prediction) (ar : String) : Nat :=
  if pred.model_prediction = ar then 1 else 0

/-- The `UPDATE predictions SET ... WHERE id = pid` of
`resolve_prediction`, with the points computed from the previously
fetched row `pred`. -/
def resolveUpdate (pid : Nat) (pred : Prediction) (ar : String) (asl aso : Nat)
    (p : Prediction) : Prediction :=
  if p.id = pid then
    { p with
      actual_result := some ar,
      actual_score_leafs := some asl,
      actual_score_opponent := some aso,
      user_points := userPointsFor pred ar asl aso,
      model_points := modelPointsFor pred ar,
      is_resolved := true }
  else p

/-- Function `database.resolve_prediction`: fetch the row with the given
id; if absent return with no change; otherwise compute the points and
update the row in place.  The Python function returns `None` on every
path, so the whole observable effect is the new table state. -/
def resolve_prediction (db : List Prediction) (pid : Nat) (ar : String)
    (asl aso : Nat) : List Prediction :=
  match db.find? (fun p => p.id == pid) with
  | none => db
  | some pred => db.map (resolveUpdate pid pred ar asl aso)

/-- A concrete unresolved prediction. -/
def pred0 : Prediction :=
  { id := 1, username := "alice", game_id := 7, game_date := "2026-01-01",
    opponent := "BOS", is_home := true, user_prediction := "W",
    user_score_leafs := 4, user_score_opponent := 2, model_prediction := "L",
    model_win_probability := 41, actual_result := none,
    actual_score_leafs := none, actual_score_opponent := none,
    user_points := 0, model_points := 0, is_resolved := false }

/-- Row `pred0` after resolution with actual outcome W 4:2. -/
def pred0res : Prediction :=
  { pred0 with
    actual_result := some "W", actual_score_leafs := some 4,
    actual_score_opponent := some 2, user_points := 3, model_points := 0,
    is_resolved := true }

/-- The mutable selection state of `train_all_models`; the fitted model
object is identified here by its family name. -/
structure SelState where
  best_model : Option String
  best_accuracy : ℚ
  best_name : String
  best_scaler : Option Unit
  deriving DecidableEq, Repr

/-- One iteration of the selection loop of `train_all_models`:
`if cv_mean > best_accuracy and name != "Logistic Regression"`; when a
candidate wins, `best_scaler` is set to `None` (tree models carry no
scaler). -/
def selectStep (st : SelState) (c : String × ℚ) : SelState :=
  if st.best_accuracy < c.2 ∧ c.1 ≠ "Logistic Regression" then
    { best_model := some c.1, best_accuracy := c.2, best_name := c.1,
      best_scaler := none }
  else st

/-- The selection part of `train_all_models`: the three candidates are
visited in the insertion order of the `models` dict, each with its
5-fold cross-validated mean accuracy, starting from
`best_model = None`, `best_accuracy = 0`, `best_name = ""`,
`best_scaler = None`. -/
def train_all_models_select (gb rf lr : ℚ) : SelState :=
  [("Gradient Boosting", gb), ("Random Forest", rf),
   ("Logistic Regression", lr)].foldl selectStep
    { best_model := none, best_accuracy := 0, best_name := "",
      best_scaler := none }

/-- The in-memory model globals `ml_model`/`ml_scaler` of `app.py`. -/
structure MLState where
  ml_model : Option String
  ml_scaler : Option Unit
  deriving DecidableEq, Repr

/-- Function `app.retrain_model`: the whole load/feature/train/save
pipeline runs inside one `try`.  `pipeline` is its outcome: the
cross-validated accuracies fed to the selection loop on success,
`Except.error` when any step raises.  Only after the pipeline fully
succeeds are the globals replaced; the returned flag mirrors the
`True`/`False` result. -/
def retrain_model (st : MLState) (pipeline : Except String (ℚ × ℚ × ℚ)) :
    MLState × Bool :=
  match pipeline with
  | .error _ => (st, false)
  | .ok (gb, rf, lr) =>
      ({ ml_model := (train_all_models_select gb rf lr).best_model,
         ml_scaler := (train_all_models_select gb rf lr).best_scaler }, true)

/-- One wake-up of the scheduler thread of `start_scheduler`: the whole
`auto_update_cycle` is wrapped in `try/except` inside the loop; a
successful cycle retrains only when new games were found (`some`), and
the retrain carries its own `try`. -/
def scheduler_cycle (st : MLState)
    (ev : Except String (Option (Except String (ℚ × ℚ × ℚ)))) : MLState :=
  match ev with
  | .error _ => st
  | .ok none => st
  | .ok (some pipeline) => (retrain_model st pipeline).1

/-- The scheduler loop of `start_scheduler` over a finite trace of
wake-up outcomes. -/
def scheduler_run (st : MLState)
    (evs : List (Except String (Option (Except String (ℚ × ℚ × ℚ))))) : MLState :=
  evs.foldl scheduler_cycle st

/-- The result dict of `model.predict_game` (the fields the submit path
reads). -/
structure ModelPred where
  prediction : String
  win_probability : ℚ
  deriving DecidableEq, Repr

/-- Function `app.get_model_prediction`: `None` when no model or no game
table is loaded; otherwise the `predict_game` result, with a raised
exception also mapped to `None`.  `run` abstracts the `predict_game`
call. -/
def get_model_prediction (ml_model : Option String)
    (game_data : Option (List Game)) (run : Except String ModelPred) :
    Option ModelPred :=
  match ml_model, game_data with
  | some _, some _ => match run with | .ok p => some p | .error _ => none
  | _, _ => none

/-- Function `database.add_prediction`: an unconditional INSERT of a new
unresolved row under a fresh auto-incremented id; returns the new id. -/
def add_prediction (db : List Prediction) (username : String) (game_id : Nat)
    (game_date opponent : String) (is_home : Bool) (user_prediction : String)
    (user_score_leafs user_score_opponent : Nat) (model_prediction : String)
    (model_win_probability : ℚ) : List Prediction × Nat :=
  let nid := (db.map Prediction.id).foldr max 0 + 1
  (db ++ [{ id := nid, username := username, game_id := game_id,
            game_date := game_date, opponent := opponent, is_home := is_home,
            user_prediction := user_prediction,
            user_score_leafs := user_score_leafs,
            user_score_opponent := user_score_opponent,
            model_prediction := model_prediction,
            model_win_probability := model_win_probability,
            actual_result := none, actual_score_leafs := none,
            actual_score_opponent := none, user_points := 0, model_points := 0,
            is_resolved := false }], nid)

/-- The `/submit_prediction` POST handler of `app.py`: reads the form,
takes the model guess from `get_model_prediction` — defaulting to `"W"`
with win probability `50.0` when that returned `None` — and INSERTs via
`add_prediction`.  This write path performs no duplicate check; only
the GET page `/predict/<id>` consults `prediction_exists`. -/
def submit_prediction (db : List Prediction) (username : String) (game_id : Nat)
    (game_date opponent : String) (is_home : Bool) (user_prediction : String)
    (user_score_leafs user_score_opponent : Nat)
    (model_pred : Option ModelPred) : List Prediction :=
  let model_prediction := match model_pred with
    | some m => m.prediction
    | none => "W"
  let model_win_prob : ℚ := match model_pred with
    | some m => m.win_probability
    | none => 50
  (add_prediction db username game_id game_date opponent is_home user_prediction
    user_score_leafs user_score_opponent model_prediction model_win_prob).1

/-- One submission by alice for game 1. -/
def dbDup1 : List Prediction :=
  submit_prediction [] "alice" 1 "2026-01-01" "BOS" true "W" 4 2 none

/-- A second, identical submission by alice for game 1. -/
def dbDup2 : List Prediction :=
  submit_prediction dbDup1 "alice" 1 "2026-01-01" "BOS" true "W" 4 2 none

/-- One per-user row of `get_leaderboard` (its `rank` is the output
position and `accuracy` a display ratio of `correct`/`total_games`;
the aggregate columns are carried here).  `exact_matches` is the SQL
column named `exact`. -/
structure UserRow where
  username : String
  total_games : Nat
  total_points : Nat
  correct : Nat
  exact_matches : Nat
  deriving DecidableEq, Repr

/-- The model aggregate row of `get_leaderboard`. -/
structure ModelRow where
  total_games : Nat
  total_points : Nat
  correct : Nat
  deriving DecidableEq, Repr

/-- The rows the per-user GROUP BY of `get_leaderboard` aggregates for
user `u`: `WHERE is_resolved = 1 AND username != '' GROUP BY username`. -/
def lbUserPreds (db : List Prediction) (u : String) : List Prediction :=
  db.filter (fun p => p.is_resolved && p.username == u)

/-- One GROUP BY result row for user `u`. -/
def userRowFor (db : List Prediction) (u : String) : UserRow :=
  { username := u,
    total_games := (lbUserPreds db u).length,
    total_points := ((lbUserPreds db u).map Prediction.user_points).sum,
    correct := (lbUserPreds db u).countP (fun p => decide (0 < p.user_points)),
    exact_matches := (lbUserPreds db u).countP (fun p => p.user_points == 3) }

/-- The distinct non-empty usernames among resolved predictions (the
groups of the GROUP BY). -/
def lbUsernames (db : List Prediction) : List String :=
  ((db.filter (fun p => p.is_resolved && !(p.username == ""))).map
    Prediction.username).dedup

/-- The `ORDER BY total_points DESC` of the user query. -/
def lbOrder (a b : UserRow) : Prop := b.total_points ≤ a.total_points

instance : DecidableRel lbOrder := fun a b => Nat.decLe b.total_points a.total_points

instance : IsTotal UserRow lbOrder := ⟨fun a b => le_total b.total_points a.total_points⟩

instance : IsTrans UserRow lbOrder := ⟨fun _ _ _ h1 h2 => le_trans h2 h1⟩

/-- The `users` list of `get_leaderboard`: one aggregate row per
distinct non-empty username with a resolved prediction, ordered by
total points descending. -/
def get_leaderboard_users (db : List Prediction) : List UserRow :=
  List.insertionSort lbOrder ((lbUsernames db).map (userRowFor db))

/-- The `model` aggregate of `get_leaderboard`: one row over ALL
resolved predictions regardless of username. -/
def get_leaderboard_model (db : List Prediction) : ModelRow :=
  { total_games := (db.filter Prediction.is_resolved).length,
    total_points := ((db.filter Prediction.is_resolved).map
      Prediction.model_points).sum,
    correct := (db.filter Prediction.is_resolved).countP
      (fun p => decide (0 < p.model_points)) }

theorem h2hGo_length (gs : List Game) (recs : List (String × List ℚ)) :
    (h2hGo gs recs).length = gs.length := by
  induction gs generalizing recs with
  | nil => rfl
  | cons g rest ih => simp [h2hGo, ih]

theorem lookupD_setRec_self (recs : List (String × List ℚ)) (k : String) (v : List ℚ) :
    lookupD (setRec recs k v) k = v := by
  induction recs with
  | nil => simp [setRec, lookupD]
  | cons p rest ih =>
      obtain ⟨k', v'⟩ := p
      by_cases h : k' = k
      · simp [setRec, lookupD, h]
      · simp [setRec, lookupD, h, ih]

theorem lookupD_setRec_ne (recs : List (String × List ℚ)) (k k' : String)
    (v : List ℚ) (h : k ≠ k') : lookupD (setRec recs k v) k' = lookupD recs k' := by
  induction recs with
  | nil => simp [setRec, lookupD, h]
  | cons p rest ih =>
      obtain ⟨k0, v0⟩ := p
      by_cases h0 : k0 = k
      · simp [setRec, lookupD, h0, h]
      · by_cases h1 : k0 = k'
        · simp [setRec, lookupD, h0, h1, Ne.symm h]
        · simp [setRec, lookupD, h0, h1, ih]

theorem h2hGo_get? (gs : List Game) (recs : List (String × List ℚ)) (i : Nat)
    (g : Game) (hg : gs.get? i = some g) :
    (h2hGo gs recs).get? i =
      some (let prior := lookupD recs g.opponent ++
              ((gs.take i).filter (fun g' => g'.opponent == g.opponent)).map winQ
            if 2 ≤ prior.length then prior.sum / (prior.length : ℚ) else 1 / 2) := by
  induction gs generalizing recs i with
  | nil => simp at hg
  | cons g0 rest ih =>
      cases i with
      | zero =>
          simp only [List.get?] at hg
          cases hg
          simp [h2hGo]
      | succ n =>
          simp only [List.get?] at hg
          have step := ih (setRec recs g0.opponent
            (lookupD recs g0.opponent ++ [winQ g0])) n hg
          simp only [h2hGo, List.get?]
          rw [step]
          by_cases hopp : g0.opponent = g.opponent
          · rw [hopp, lookupD_setRec_self]
            simp [List.take, List.filter, hopp, List.append_assoc]
          · rw [lookupD_setRec_ne _ _ _ _ hopp]
            have hbe : (g0.opponent == g.opponent) = false := by simp [hopp]
            simp [List.take_succ_cons, List.filter_cons, hbe]

/-- C1: the spec claims every windowed statistic at position `i` uses only
games at positions strictly below `i`.  The pandas trailing windows in
`add_features` end at and include the current row, so
`rolling_win_pct` at index 4 changes when game 4's own result is
flipped (here from `some 1` to `some (4/5)`), even with the strictly
earlier games identical; mutating a strictly later game does leave the
value unchanged. -/
theorem rolling_win_pct_includes_current_game :
    gsA.take 4 = gsB.take 4 ∧
    rolling_win_pct gsA 4 = some 1 ∧
    rolling_win_pct gsB 4 = some (4 / 5) ∧
    gsC.take 5 = gsA ∧
    rolling_win_pct gsC 4 = rolling_win_pct gsA 4 := by
  have hLW : ¬ (("L" : String) = "W") := by decide
  refine ⟨by decide, ?_, ?_, by decide, ?_⟩ <;>
    norm_num [rolling_win_pct, rollingMean, window, gsA, gsB, gsC, winQ, hLW]

/-- C7: the head-to-head percentage emitted at position `i` is `0.5`
whenever fewer than two strictly earlier meetings against that row's
opponent exist (in particular at the first and second meeting), and is
otherwise the win rate over exactly the strictly earlier meetings
against that opponent. -/
theorem h2h_uses_strictly_prior_meetings (gs : List Game) (i : Nat) (g : Game)
    (hg : gs.get? i = some g) :
    (h2h_win_pct gs).get? i =
      some (let prior := ((gs.take i).filter (fun g' => g'.opponent == g.opponent)).map winQ
            if 2 ≤ prior.length then prior.sum / (prior.length : ℚ) else 1 / 2) := by
  have h := h2hGo_get? gs [] i g hg
  simpa [h2h_win_pct, lookupD] using h

/-- Witness for C7 at a concrete history: the game at index 2 of `gsA`
is the second meeting against BOS (one strictly prior meeting), so the
emitted percentage is the 0.5 default. -/
theorem h2h_uses_strictly_prior_meetings_witness :
    (h2h_win_pct gsA).get? 2 =
      some (let prior := ((gsA.take 2).filter
              (fun g' => g'.opponent == (Game.mk 3 "BOS" true 2 1 "W").opponent)).map winQ
            if 2 ≤ prior.length then prior.sum / (prior.length : ℚ) else 1 / 2) :=
  h2h_uses_strictly_prior_meetings gsA 2 (Game.mk 3 "BOS" true 2 1 "W") (by decide)

/-- C3: resolution assigns the user 0 points on a wrong categorical
guess, 1 point on a correct categorical guess with a different
scoreline, 3 points when category and both scores match; the model is
scored only categorically (1 or 0), regardless of scoreline. -/
theorem resolve_scoring_rule (db : List Prediction) (pid : Nat) (ar : String)
    (asl aso : Nat) (pred q : Prediction)
    (hfind : db.find? (fun p => p.id == pid) = some pred)
    (hq : q ∈ resolve_prediction db pid ar asl aso) (hqid : q.id = pid) :
    (pred.user_prediction ≠ ar → q.user_points = 0) ∧
    (pred.user_prediction = ar →
      (pred.user_score_leafs ≠ asl ∨ pred.user_score_opponent ≠ aso) →
      q.user_points = 1) ∧
    (pred.user_prediction = ar → pred.user_score_leafs = asl →
      pred.user_score_opponent = aso → q.user_points = 3) ∧
    (pred.model_prediction = ar → q.model_points = 1) ∧
    (pred.model_prediction ≠ ar → q.model_points = 0) := by
  rw [resolve_prediction, hfind] at hq
  obtain ⟨p, hp, rfl⟩ := List.mem_map.1 hq
  by_cases hpid : p.id = pid
  · refine ⟨fun h => ?_, fun h1 h2 => ?_, fun h1 h2 h3 => ?_, fun h => ?_, fun h => ?_⟩
    · simp [resolveUpdate, hpid, userPointsFor, h]
    · rcases h2 with h2 | h2 <;> simp [resolveUpdate, hpid, userPointsFor, h1, h2]
    · simp [resolveUpdate, hpid, userPointsFor, h1, h2, h3]
    · simp [resolveUpdate, hpid, modelPointsFor, h]
    · simp [resolveUpdate, hpid, modelPointsFor, h]
  · rw [resolveUpdate, if_neg hpid] at hqid
    exact absurd hqid hpid

/-- Witness for C3: an exact-scoreline hit gives the user 3 points and
the miscategorising model 0 points. -/
theorem resolve_scoring_rule_witness :
    pred0res.user_points = 3 ∧ pred0res.model_points = 0 := by
  have h := resolve_scoring_rule [pred0] 1 "W" 4 2 pred0 pred0res (by rfl)
    (by simp [resolve_prediction, resolveUpdate, pred0, pred0res, userPointsFor,
      modelPointsFor]) (by rfl)
  exact ⟨h.2.2.1 rfl rfl rfl, h.2.2.2.2 (by decide)⟩

theorem resolveUpdate_id (pid : Nat) (pred : Prediction) (ar : String)
    (asl aso : Nat) (p : Prediction) :
    (resolveUpdate pid pred ar asl aso p).id = p.id := by
  rw [resolveUpdate]
  split <;> rfl

theorem resolve_prediction_eq_none (db : List Prediction) (pid : Nat)
    (ar : String) (asl aso : Nat)
    (h : db.find? (fun p => p.id == pid) = none) :
    resolve_prediction db pid ar asl aso = db := by
  rw [resolve_prediction, h]

theorem resolve_prediction_eq_some (db : List Prediction) (pid : Nat)
    (ar : String) (asl aso : Nat) (pred : Prediction)
    (h : db.find? (fun p => p.id == pid) = some pred) :
    resolve_prediction db pid ar asl aso
      = db.map (resolveUpdate pid pred ar asl aso) := by
  rw [resolve_prediction, h]

theorem find?_id_map (db : List Prediction) (f : Prediction → Prediction)
    (hf : ∀ p, (f p).id = p.id) (pid : Nat) :
    (db.map f).find? (fun p => p.id == pid)
      = (db.find? (fun p => p.id == pid)).map f := by
  induction db with
  | nil => rfl
  | cons p rest ih =>
      by_cases h : p.id = pid
      · simp [List.find?_cons, hf, h]
      · simp [List.find?_cons, hf, h, ih]

/-- C6: resolving an already-resolved prediction again with the same
outcome reproduces exactly the same stored table (points, actual
result, resolved flag unchanged), and an entry that is resolved before
a resolution call is still resolved after it. -/
theorem resolve_prediction_idempotent (db : List Prediction) (pid : Nat)
    (ar : String) (asl aso : Nat) :
    resolve_prediction (resolve_prediction db pid ar asl aso) pid ar asl aso
      = resolve_prediction db pid ar asl aso ∧
    ∀ i : Nat, (db.get? i).map Prediction.is_resolved = some true →
      ((resolve_prediction db pid ar asl aso).get? i).map Prediction.is_resolved
        = some true := by
  constructor
  · cases hfind : db.find? (fun p => p.id == pid) with
    | none => simp [resolve_prediction, hfind]
    | some pred =>
        have hpredid : pred.id = pid := by
          have := List.find?_some hfind
          simpa using this
        have h1 := resolve_prediction_eq_some db pid ar asl aso pred hfind
        have hfind2 : (db.map (resolveUpdate pid pred ar asl aso)).find?
            (fun p => p.id == pid)
            = some (resolveUpdate pid pred ar asl aso pred) := by
          rw [find?_id_map db _ (resolveUpdate_id pid pred ar asl aso) pid, hfind]
          rfl
        rw [h1, resolve_prediction_eq_some _ _ _ _ _ _ hfind2, List.map_map]
        refine List.map_congr_left fun p _ => ?_
        by_cases hpid : p.id = pid
        · simp [resolveUpdate, hpid, hpredid, userPointsFor, modelPointsFor]
        · simp [resolveUpdate, hpid]
  · intro i hres
    cases hfind : db.find? (fun p => p.id == pid) with
    | none => rw [resolve_prediction_eq_none db pid ar asl aso hfind]; exact hres
    | some pred =>
        rw [resolve_prediction_eq_some db pid ar asl aso pred hfind, List.get?_map]
        cases hget : db.get? i with
        | none => rw [hget] at hres; simp at hres
        | some p =>
            rw [hget] at hres
            simp at hres ⊢
            rw [resolveUpdate]
            split
            · rfl
            · exact hres

/-- Witness for C6 at a concrete table: a double resolution equals a
single one, and the already-resolved entry stays resolved. -/
theorem resolve_prediction_idempotent_witness :
    resolve_prediction (resolve_prediction [pred0res] 1 "W" 4 2) 1 "W" 4 2
      = resolve_prediction [pred0res] 1 "W" 4 2 ∧
    ((resolve_prediction [pred0res] 1 "W" 4 2).get? 0).map Prediction.is_resolved
      = some true :=
  ⟨(resolve_prediction_idempotent [pred0res] 1 "W" 4 2).1,
   (resolve_prediction_idempotent [pred0res] 1 "W" 4 2).2 0 (by rfl)⟩

/-- C10: resolving an id that is not in the store leaves every stored
prediction unchanged and signals nothing (the source function returns
`None` on every path, so a caller sees the same as for a successful
resolution). -/
theorem resolve_missing_id_noop (db : List Prediction) (pid : Nat) (ar : String)
    (asl aso : Nat) (h : ∀ p ∈ db, p.id ≠ pid) :
    resolve_prediction db pid ar asl aso = db := by
  have hf : db.find? (fun p => p.id == pid) = none := by
    rw [List.find?_eq_none]
    intro p hp
    simpa using h p hp
  simp [resolve_prediction, hf]

/-- Witness for C10: resolving the absent id 99 leaves the store as is. -/
theorem resolve_missing_id_noop_witness :
    resolve_prediction [pred0] 99 "W" 4 2 = [pred0] :=
  resolve_missing_id_noop [pred0] 99 "W" 4 2 (by decide)

/-- C2: whatever the three cross-validated accuracies are, logistic
regression is never the selected family; the winner is the better of
the gradient-boosting and random-forest candidates by cross-validated
accuracy (gradient boosting on a tie, being visited first), and the
returned scaler is `None`. -/
theorem selection_never_logistic_regression (gb rf lr : ℚ)
    (hgb : 0 ≤ gb) (hrf : 0 ≤ rf) (hpos : 0 < gb ∨ 0 < rf) :
    (train_all_models_select gb rf lr).best_name ≠ "Logistic Regression" ∧
    (train_all_models_select gb rf lr).best_scaler = none ∧
    ((train_all_models_select gb rf lr).best_name = "Gradient Boosting" ∧
       (train_all_models_select gb rf lr).best_accuracy = gb ∧ rf ≤ gb ∨
     (train_all_models_select gb rf lr).best_name = "Random Forest" ∧
       (train_all_models_select gb rf lr).best_accuracy = rf ∧ gb ≤ rf) := by
  have hs1 : ("Gradient Boosting" : String) ≠ "Logistic Regression" := by decide
  have hs2 : ("Random Forest" : String) ≠ "Logistic Regression" := by decide
  have hrf0 : 0 ≤ rf := hrf
  by_cases h1 : 0 < gb
  · by_cases h2 : gb < rf
    · have hsel : train_all_models_select gb rf lr
          = ⟨some "Random Forest", rf, "Random Forest", none⟩ := by
        simp [train_all_models_select, selectStep, h1, h2, hs1, hs2]
      rw [hsel]
      exact ⟨hs2, rfl, Or.inr ⟨rfl, rfl, le_of_lt h2⟩⟩
    · have hsel : train_all_models_select gb rf lr
          = ⟨some "Gradient Boosting", gb, "Gradient Boosting", none⟩ := by
        simp [train_all_models_select, selectStep, h1, h2, hs1, hs2]
      rw [hsel]
      exact ⟨hs1, rfl, Or.inl ⟨rfl, rfl, not_lt.1 h2⟩⟩
  · have hgb0 : gb = 0 := le_antisymm (not_lt.1 h1) hgb
    have h2 : 0 < rf := hpos.resolve_left h1
    have hsel : train_all_models_select gb rf lr
        = ⟨some "Random Forest", rf, "Random Forest", none⟩ := by
      simp [train_all_models_select, selectStep, h1, h2, hs1, hs2]
    rw [hsel]
    exact ⟨hs2, rfl, Or.inr ⟨rfl, rfl, hgb0 ▸ le_of_lt h2⟩⟩

/-- Witness for C2 at concrete accuracies where logistic regression has
the highest cross-validated accuracy of the three. -/
theorem selection_never_logistic_regression_witness :
    (train_all_models_select (3 / 5) (11 / 20) (99 / 100)).best_name
        ≠ "Logistic Regression" ∧
    (train_all_models_select (3 / 5) (11 / 20) (99 / 100)).best_scaler = none ∧
    (train_all_models_select (3 / 5) (11 / 20) (99 / 100)).best_name
        = "Gradient Boosting" := by
  have h := selection_never_logistic_regression (3 / 5) (11 / 20) (99 / 100)
    (by norm_num) (by norm_num) (Or.inl (by norm_num))
  refine ⟨h.1, h.2.1, ?_⟩
  rcases h.2.2 with h3 | h3
  · exact h3.1
  · exact absurd h3.2.2 (by norm_num)

/-- C9: a failed retraining returns `False` and leaves the loaded model
and scaler exactly as they were; a cycle whose retraining fails, or a
cycle that raises anywhere, does not stop the loop — the run simply
continues with the remaining scheduled cycles (and `scheduler_run` is a
total function: no trace crashes it). -/
theorem retrain_failure_keeps_model (st : MLState) (e e' e'' : String)
    (evs : List (Except String (Option (Except String (ℚ × ℚ × ℚ))))) :
    retrain_model st (.error e) = (st, false) ∧
    scheduler_cycle st (.ok (some (.error e))) = st ∧
    scheduler_run st (.error e' :: evs) = scheduler_run st evs ∧
    scheduler_run st (.ok (some (.error e'')) :: evs) = scheduler_run st evs :=
  ⟨rfl, rfl, rfl, rfl⟩

/-- C4: the claim requires a second submission for an existing
(username, game_id) pair to fail and create no second record.  On the
code's write path the duplicate INSERT goes through without any error
being signalled: after two identical submissions by alice for game 1
the store holds two rows for that pair (the original one unchanged). -/
theorem duplicate_submission_inserts_second_row :
    dbDup2.length = 2 ∧
    dbDup2.countP (fun p => p.username == "alice" && p.game_id == 1) = 2 ∧
    dbDup2.get? 0 = dbDup1.get? 0 := by decide

/-- C5 counterexample: with no model loaded, `get_model_prediction` is
`None`, yet the submit path stores the fabricated categorical guess
"W" with the invented probability 50.0. -/
theorem submit_stores_fabricated_guess :
    get_model_prediction none none (.error "no model") = none ∧
    ((submit_prediction [] "bob" 2 "2026-01-02" "MTL" false "L" 2 3
        (get_model_prediction none none (.error "no model"))).get? 0).map
      (fun p => (p.model_prediction, p.model_win_probability))
      = some ("W", 50) := by decide

/-- C5 (amended): `get_model_prediction` itself yields an explicit
`None` whenever no model or no game table is loaded, and also when
`predict_game` raises with both loaded; but `submit_prediction` maps
that `None` to a stored default model guess of "W" with win probability
50.0 instead of a no-prediction outcome. -/
theorem no_model_yields_none_but_submit_defaults
    (ml : Option String) (gd : Option (List Game)) (run : Except String ModelPred)
    (h : ml = none ∨ gd = none ∨ ∃ e, run = .error e) (db : List Prediction)
    (username : String) (game_id : Nat) (game_date opponent : String)
    (is_home : Bool) (user_prediction : String) (usl uso : Nat) :
    get_model_prediction ml gd run = none ∧
    ((submit_prediction db username game_id game_date opponent is_home
        user_prediction usl uso (get_model_prediction ml gd run)).get?
      db.length).map (fun p => (p.model_prediction, p.model_win_probability))
      = some ("W", 50) := by
  have hnone : get_model_prediction ml gd run = none := by
    rcases h with h | h | ⟨e, h⟩
    · subst h; cases gd <;> rfl
    · subst h; cases ml <;> rfl
    · subst h; cases ml <;> cases gd <;> rfl
  refine ⟨hnone, ?_⟩
  rw [hnone]
  simp only [submit_prediction, add_prediction]
  rw [List.get?_concat_length]
  rfl

/-- Witness for C5's amended statement: a model and a game table ARE
loaded and `predict_game` raises — the prediction outcome is still the
explicit `None`, and the submit path still fabricates "W"/50.0. -/
theorem no_model_yields_none_but_submit_defaults_witness :
    get_model_prediction (some "Gradient Boosting") (some gsA)
      (.error "predict raised") = none ∧
    ((submit_prediction [] "bob" 2 "d" "MTL" false "L" 2 3
        (get_model_prediction (some "Gradient Boosting") (some gsA)
          (.error "predict raised"))).get? 0).map
      (fun p => (p.model_prediction, p.model_win_probability))
      = some ("W", 50) :=
  no_model_yields_none_but_submit_defaults (some "Gradient Boosting") (some gsA)
    (.error "predict raised") (Or.inr (Or.inr ⟨"predict raised", rfl⟩))
    [] "bob" 2 "d" "MTL" false "L" 2 3

theorem sum_resolved_points (db : List Prediction) (u : String) :
    ((db.filter (fun p => p.username == u)).map
        (fun p => if p.is_resolved then p.user_points else 0)).sum
      = ((db.filter (fun p => p.is_resolved && p.username == u)).map
          Prediction.user_points).sum := by
  induction db with
  | nil => rfl
  | cons p rest ih =>
      by_cases hu : p.username = u
      · cases hr : p.is_resolved
        · simp [List.filter_cons, hu, hr, ih]
        · simp [List.filter_cons, hu, hr, ih]
      · simp [List.filter_cons, hu, ih]

/-- C8: every reported user row's total is the sum of that user's
per-prediction points over that user's resolved predictions only —
equivalently, the sum over all of that user's predictions in which an
unresolved prediction contributes 0 —, the user rows come ranked by
total points in descending order, and the single model row totals the
model points of all resolved predictions regardless of user. -/
theorem leaderboard_totals (db : List Prediction) :
    (∀ row ∈ get_leaderboard_users db,
      row.total_points
          = ((db.filter (fun p => p.is_resolved && p.username == row.username)).map
              Prediction.user_points).sum ∧
      row.total_points
          = ((db.filter (fun p => p.username == row.username)).map
              (fun p => if p.is_resolved then p.user_points else 0)).sum) ∧
    List.Sorted lbOrder (get_leaderboard_users db) ∧
    (get_leaderboard_model db).total_points
        = ((db.filter Prediction.is_resolved).map Prediction.model_points).sum ∧
    (get_leaderboard_model db).total_games
        = (db.filter Prediction.is_resolved).length := by
  refine ⟨?_, ?_, rfl, rfl⟩
  · intro row hrow
    rw [get_leaderboard_users] at hrow
    have hrow' := (List.perm_insertionSort lbOrder _).mem_iff.1 hrow
    obtain ⟨u, hu, rfl⟩ := List.mem_map.1 hrow'
    have husr : (userRowFor db u).username = u := rfl
    rw [husr]
    exact ⟨rfl, (sum_resolved_points db u).symm⟩
  · exact List.sorted_insertionSort lbOrder _

/-- Witness for C8 at a one-row store: alice's leaderboard row carries
exactly her 3 resolved points. -/
theorem leaderboard_totals_witness :
    (userRowFor [pred0res] "alice").total_points
        = (([pred0res].filter (fun p => p.is_resolved
            && p.username == (userRowFor [pred0res] "alice").username)).map
          Prediction.user_points).sum ∧
    (userRowFor [pred0res] "alice").total_points = 3 :=
  ⟨((leaderboard_totals [pred0res]).1 (userRowFor [pred0res] "alice")
      (by decide)).1, by decide⟩

end LeafsPredictor
